import Mathlib

/-!
Shallow embedding of the EcoGuardAi risk-assessment engine (src/app.py).

Timestamps are modelled as integer epoch seconds (the source stores
second-granularity `"%Y-%m-%d %H:%M:%S"` strings and compares them with
SQLite `datetime`, which is order-isomorphic to epoch seconds).
Python float arithmetic on the score is modelled over `ℚ`; coordinates are
a type parameter `α` together with the distance function
`dist : α → α → α → α → ℚ` standing for `calculate_distance` (the haversine
formula over floats), since the engine only ever compares its result to the
20 km radius.  `PyFloat` models the values of Python `float()` parsing,
which accepts the non-finite values `inf`, `-inf` and `nan`.
-/

namespace EcoGuard

/-- The classifier's fixed label set (`classes`, src/app.py:74-78). -/
inductive Species
  | dungBeetle
  | appleSnail
  | asianLonghornedBeetle
  deriving DecidableEq

/-- A species label as stored in `prediction`: one of the fixed classes or
the `"Unknown Species"` sentinel (src/app.py:92-95). -/
inductive Label
  | known (s : Species)
  | unknown
  deriving DecidableEq

/-- `invasive_species` (src/app.py:164); the same list is hardcoded in the
SQL `prediction IN ('Apple snail', 'Asian longhorned beetle')` filters. -/
def invasiveSpecies : List Species := [Species.appleSnail, Species.asianLonghornedBeetle]

/-- `result in invasive_species` (src/app.py:169/181); `"Unknown Species"`
is not in the list. -/
def Label.isInvasive : Label → Bool
  | Label.known s => decide (s ∈ invasiveSpecies)
  | Label.unknown => false

/-- The `risk` column values written by `upload` (src/app.py:167-214):
three terminal classifications plus the four scored levels (the source
strings are "Uncertain - Low Confidence Detection",
"High Risk (Invasive Species Detected)", "Low Risk (Native Species)",
"Low", "Moderate", "High", "Critical 🚨"). -/
inductive Risk
  | uncertainLowConfidence
  | highRiskInvasive
  | lowRiskNative
  | low
  | moderate
  | high
  | critical
  deriving DecidableEq

/-- The values produced by Python `float()` on a form field: a finite
value, or one of the non-finite values `inf`, `-inf`, `nan`, all of which
`float()` parses without error (src/app.py:156-157 performs no further
validation). -/
inductive PyFloat
  | finite (q : ℚ)
  | posInf
  | negInf
  | nan
  deriving DecidableEq

def PyFloat.isFinite : PyFloat → Bool
  | PyFloat.finite _ => true
  | _ => false

/-- One row of the `reports` table (src/app.py:23-36). -/
structure Report (α : Type) where
  id : Nat
  image : String
  latitude : α
  longitude : α
  address : String
  prediction : Label
  created_at : Int
  verified : Int
  confidence : ℚ
  risk : Risk
  deriving DecidableEq

/-- One row of the `alerts` table (src/app.py:39-50). -/
structure Alert (α : Type) where
  latitude : α
  longitude : α
  severity : Risk
  message : String
  created_at : Int
  status : String
  species : Label
  deriving DecidableEq

/-- One row of the `anomalies` table (src/app.py:53-61). -/
structure Anomaly (α : Type) where
  latitude : α
  longitude : α
  radius : ℚ
  description : String
  deriving DecidableEq

/-- The database state: the three tables plus the autoincrement counter of
`reports.id`. -/
structure DB (α : Type) where
  reports : List (Report α)
  alerts : List (Alert α)
  anomalies : List (Anomaly α)
  nextReportId : Nat
  deriving DecidableEq

def Species.text : Species → String
  | Species.dungBeetle => "Dung beetle"
  | Species.appleSnail => "Apple snail"
  | Species.asianLonghornedBeetle => "Asian longhorned beetle"

def Label.text : Label → String
  | Label.known s => s.text
  | Label.unknown => "Unknown Species"

/-- `predict_species` post-processing (src/app.py:83-95): the argmax label
`best` and its `confidence` come from the external model; below 0.70 the
label is replaced by the `"Unknown Species"` sentinel. -/
def predict_species (best : Species) (confidence : ℚ) : Label × ℚ :=
  if confidence < 7/10 then (Label.unknown, confidence)
  else (Label.known best, confidence)

/-- Seconds in seven days: SQLite `datetime('now', '-7 days')`. -/
def sevenDays : Int := 604800

/-- The trailing-week invasive filter used by the `upload` window query
(src/app.py:182-187): `prediction IN (invasive) AND datetime(created_at)
>= datetime('now', '-7 days')`, an inclusive lower bound. -/
def isRecentInvasive (now : Int) (r : Report α) : Bool :=
  r.prediction.isInvasive && decide (now - sevenDays ≤ r.created_at)

/-- `invasive_reports = c.fetchall()` (src/app.py:188). -/
def recentInvasiveReports (now : Int) (reports : List (Report α)) : List (Report α) :=
  reports.filter (isRecentInvasive now)

/-- The cluster-count loop (src/app.py:191-194): count the fetched reports
whose haversine distance from the new report is `<= 20` km. -/
def clusterCount (dist : α → α → α → α → ℚ) (lat lon : α)
    (reports : List (Report α)) : Nat :=
  reports.countP (fun r => decide (dist lat lon r.latitude r.longitude ≤ 20))

/-- `cluster_count` as computed in `upload`: the loop runs over the
trailing-week invasive window fetched from the pre-insertion store. -/
def uploadClusterCount (dist : α → α → α → α → ℚ) (now : Int) (lat lon : α)
    (reports : List (Report α)) : Nat :=
  clusterCount dist lat lon (recentInvasiveReports now reports)

/-- `recent_count = len(invasive_reports)` (src/app.py:189). -/
def uploadRecentCount (now : Int) (reports : List (Report α)) : Nat :=
  (recentInvasiveReports now reports).length

/-- `anomaly_flag` (src/app.py:179/196-202): set to 1 exactly when the
anomaly insert fires, i.e. when `cluster_count >= 2`. -/
def anomalyFlag (clusterCnt : Nat) : Nat :=
  if 2 ≤ clusterCnt then 1 else 0

/-- `risk_score_value = (cluster_count * 0.4) + (recent_count * 0.3) +
(anomaly_flag * 0.3)` (src/app.py:205). -/
def riskScore (clusterCnt recentCnt aFlag : Nat) : ℚ :=
  clusterCnt * (4/10) + recentCnt * (3/10) + aFlag * (3/10)

/-- The score → risk-level ladder (src/app.py:207-214). -/
def scoreRisk (score : ℚ) : Risk :=
  if score < 3 then Risk.low
  else if score < 6 then Risk.moderate
  else if score < 9 then Risk.high
  else Risk.critical

/-- The default risk assigned before scoring (src/app.py:167-172). -/
def defaultRisk (result : Label) : Risk :=
  if result = Label.unknown then Risk.uncertainLowConfidence
  else if result.isInvasive then Risk.highRiskInvasive
  else Risk.lowRiskNative

/-- The final `risk` value persisted with the report: for an invasive
result the scored level overwrites the default (src/app.py:205-214);
otherwise the terminal default stands. -/
def uploadRisk (dist : α → α → α → α → ℚ) (now : Int) (lat lon : α)
    (reports : List (Report α)) (result : Label) : Risk :=
  if result.isInvasive then
    scoreRisk (riskScore (uploadClusterCount dist now lat lon reports)
      (uploadRecentCount now reports)
      (anomalyFlag (uploadClusterCount dist now lat lon reports)))
  else defaultRisk result

def anomalyDescription : String := "Vegetation Stress Detected via Satellite Correlation"

/-- The anomaly row inserted when the emitter fires (src/app.py:197-201):
centered on the new report's coordinate, radius 20000, fixed text. -/
def uploadAnomaly (lat lon : α) : Anomaly α :=
  { latitude := lat, longitude := lon, radius := 20000,
    description := anomalyDescription }

/-- The alert row inserted for High/Critical risk (src/app.py:218-225). -/
def uploadAlert (lat lon : α) (risk : Risk) (result : Label) (now : Int) : Alert α :=
  { latitude := lat, longitude := lon, severity := risk,
    message := result.text ++ " detected at high risk", created_at := now,
    status := "Active", species := result }

/-- The report row inserted at the end of `upload` (src/app.py:228-232). -/
def uploadReport (db : DB α) (image : String) (lat lon : α) (address : String)
    (result : Label) (confidence : ℚ) (now : Int) (risk : Risk) : Report α :=
  { id := db.nextReportId, image := image, latitude := lat, longitude := lon,
    address := address, prediction := result, created_at := now, verified := 0,
    confidence := confidence, risk := risk }

/-- The `upload` route (src/app.py:153-235): classify, compute the default
risk, and — only for an invasive result — fetch the trailing-week invasive
window from the (pre-insertion) store, count the cluster, conditionally
insert an anomaly, score, conditionally insert an alert; finally insert
the report row with the final risk. -/
def upload (dist : α → α → α → α → ℚ) (now : Int) (db : DB α)
    (image : String) (lat lon : α) (address : String)
    (best : Species) (conf : ℚ) : DB α :=
  let rc := predict_species best conf
  let result := rc.1
  let confidence := rc.2
  let cCnt := uploadClusterCount dist now lat lon db.reports
  let risk := uploadRisk dist now lat lon db.reports result
  { reports := db.reports ++ [uploadReport db image lat lon address result confidence now risk],
    anomalies := db.anomalies ++
      (if result.isInvasive && decide (2 ≤ cCnt) then [uploadAnomaly lat lon] else []),
    alerts := db.alerts ++
      (if result.isInvasive && decide (risk = Risk.high ∨ risk = Risk.critical) then
        [uploadAlert lat lon risk result now]
       else []),
    nextReportId := db.nextReportId + 1 }

/-- The trend labels (src/app.py:134-139; the source strings carry emoji
suffixes). -/
inductive Trend
  | spreading
  | stable
  | declining
  deriving DecidableEq

/-- The current-week filter of `get_spread_trend` (src/app.py:118-122):
`datetime(created_at) >= datetime('now', '-7 days')`. -/
def inCurrentWeek (now : Int) (r : Report α) : Bool :=
  r.prediction.isInvasive && decide (now - sevenDays ≤ r.created_at)

/-- The previous-week filter of `get_spread_trend` (src/app.py:125-129):
`datetime(created_at) BETWEEN datetime('now', '-14 days') AND
datetime('now', '-7 days')` — SQLite `BETWEEN` is inclusive at BOTH ends. -/
def inPreviousWeek (now : Int) (r : Report α) : Bool :=
  r.prediction.isInvasive &&
    decide (now - 2 * sevenDays ≤ r.created_at ∧ r.created_at ≤ now - sevenDays)

/-- `get_spread_trend` (src/app.py:114-141). -/
def get_spread_trend (now : Int) (reports : List (Report α)) : Nat × Nat × Trend :=
  let currentWeek := (reports.filter (inCurrentWeek now)).length
  let previousWeek := (reports.filter (inPreviousWeek now)).length
  let trend :=
    if previousWeek < currentWeek then Trend.spreading
    else if currentWeek = previousWeek then Trend.stable
    else Trend.declining
  (currentWeek, previousWeek, trend)

/-- The spec's version of the previous-week window, §4.6: timestamp in the
HALF-OPEN interval [now-14d, now-7d).  Kept separate from the source's
`inPreviousWeek` to compare the two. -/
def inPreviousWeekSpec (now : Int) (r : Report α) : Bool :=
  r.prediction.isInvasive &&
    decide (now - 2 * sevenDays ≤ r.created_at ∧ r.created_at < now - sevenDays)

def previousWeekCountSpec (now : Int) (reports : List (Report α)) : Nat :=
  (reports.filter (inPreviousWeekSpec now)).length

/-- `approve_report` (src/app.py:368-375): `UPDATE reports SET verified=1
WHERE id=?`. -/
def approve_report (db : DB α) (reportId : Nat) : DB α :=
  { db with reports :=
      db.reports.map (fun r => if r.id = reportId then { r with verified := 1 } else r) }

/-- `reject_report` (src/app.py:377-384): `UPDATE reports SET verified=-1
WHERE id=?`. -/
def reject_report (db : DB α) (reportId : Nat) : DB α :=
  { db with reports :=
      db.reports.map (fun r => if r.id = reportId then { r with verified := -1 } else r) }

/-! Helper lemmas. -/

theorem scoreRisk_low_iff (s : ℚ) : scoreRisk s = Risk.low ↔ s < 3 := by
  unfold scoreRisk
  split_ifs with h1 h2 h3 <;> simp_all

theorem scoreRisk_moderate_iff (s : ℚ) :
    scoreRisk s = Risk.moderate ↔ 3 ≤ s ∧ s < 6 := by
  unfold scoreRisk
  split_ifs with h1 h2 h3 <;> simp_all <;> intros <;> linarith

theorem scoreRisk_high_iff (s : ℚ) :
    scoreRisk s = Risk.high ↔ 6 ≤ s ∧ s < 9 := by
  unfold scoreRisk
  split_ifs with h1 h2 h3 <;> simp_all <;> intros <;> linarith

theorem scoreRisk_critical_iff (s : ℚ) :
    scoreRisk s = Risk.critical ↔ 9 ≤ s := by
  unfold scoreRisk
  split_ifs with h1 h2 h3 <;> simp_all <;> intros <;> linarith

theorem riskScore_nonneg (c r a : Nat) : 0 ≤ riskScore c r a := by
  unfold riskScore
  positivity

theorem defaultRisk_ne_high (result : Label) : defaultRisk result ≠ Risk.high := by
  unfold defaultRisk
  split_ifs <;> simp

theorem defaultRisk_ne_critical (result : Label) : defaultRisk result ≠ Risk.critical := by
  unfold defaultRisk
  split_ifs <;> simp

/-! Claim theorems. -/

/-- C1: for every invasive-species report that reaches scoring, the
persisted risk is `scoreRisk` of the composite score
`clusterCount * 0.4 + recentCount * 0.3 + anomalyFlag * 0.3`, the score is
nonnegative, and `scoreRisk` maps the half-open intervals [0, 3), [3, 6),
[6, 9), [9, ∞) to Low, Moderate, High, Critical respectively. -/
theorem upload_score_formula_and_risk_intervals {α : Type}
    (dist : α → α → α → α → ℚ) (now : Int) (db : DB α) (image : String)
    (lat lon : α) (address : String) (best : Species) (conf : ℚ)
    (h : (predict_species best conf).1.isInvasive = true) :
    (upload dist now db image lat lon address best conf).reports =
      db.reports ++ [uploadReport db image lat lon address (predict_species best conf).1
        (predict_species best conf).2 now
        (scoreRisk (riskScore (uploadClusterCount dist now lat lon db.reports)
          (uploadRecentCount now db.reports)
          (anomalyFlag (uploadClusterCount dist now lat lon db.reports))))]
    ∧ 0 ≤ riskScore (uploadClusterCount dist now lat lon db.reports)
        (uploadRecentCount now db.reports)
        (anomalyFlag (uploadClusterCount dist now lat lon db.reports))
    ∧ ∀ s : ℚ,
        (scoreRisk s = Risk.low ↔ s < 3)
        ∧ (scoreRisk s = Risk.moderate ↔ 3 ≤ s ∧ s < 6)
        ∧ (scoreRisk s = Risk.high ↔ 6 ≤ s ∧ s < 9)
        ∧ (scoreRisk s = Risk.critical ↔ 9 ≤ s) := by
  refine ⟨?_, riskScore_nonneg _ _ _, fun s =>
    ⟨scoreRisk_low_iff s, scoreRisk_moderate_iff s, scoreRisk_high_iff s,
     scoreRisk_critical_iff s⟩⟩
  simp [upload, uploadRisk, h]

/-- Witness for C1 at the spec's worked example: clusterCount = 10,
recentCount = 15, anomalyFlag = 1 gives score 8.8 and level High. -/
theorem upload_score_formula_and_risk_intervals_witness :
    scoreRisk (riskScore 10 15 1) = Risk.high ∧ riskScore 10 15 1 = 88/10 := by
  have h := upload_score_formula_and_risk_intervals (fun _ _ _ _ => (0:ℚ)) 0
      ⟨[], [], [], 0⟩ "img" 0 0 "addr" Species.appleSnail 1
      (by norm_num [predict_species, Label.isInvasive, invasiveSpecies])
  have hc := (h.2.2 (riskScore 10 15 1)).2.2.1
  constructor
  · exact hc.mpr (by norm_num [riskScore])
  · norm_num [riskScore]

/-- C2: an Anomaly row is created iff the report is invasive and
clusterCount ≥ 2; the created anomaly is centered on the new report's own
coordinate with fixed radius 20000 and the fixed description text, and
`anomalyFlag` is 1 exactly under the same condition. -/
theorem upload_anomaly_iff_invasive_and_cluster {α : Type}
    (dist : α → α → α → α → ℚ) (now : Int) (db : DB α) (image : String)
    (lat lon : α) (address : String) (best : Species) (conf : ℚ) :
    ((upload dist now db image lat lon address best conf).anomalies =
      if (predict_species best conf).1.isInvasive = true
          ∧ 2 ≤ uploadClusterCount dist now lat lon db.reports then
        db.anomalies ++
          [{ latitude := lat, longitude := lon, radius := 20000,
             description := anomalyDescription }]
      else db.anomalies)
    ∧ (anomalyFlag (uploadClusterCount dist now lat lon db.reports) = 1 ↔
        2 ≤ uploadClusterCount dist now lat lon db.reports) := by
  constructor
  · simp only [upload, uploadAnomaly, Bool.and_eq_true, decide_eq_true_eq]
    split_ifs with h1 h2 h2 <;> simp_all
  · unfold anomalyFlag
    split_ifs with h1 <;> simp [h1]

/-- C3: exactly one Alert row is created iff the final risk level is High
or Critical, and the created alert carries severity equal to that risk
level, status "Active", and the detected label in its species field. -/
theorem upload_alert_iff_high_or_critical {α : Type}
    (dist : α → α → α → α → ℚ) (now : Int) (db : DB α) (image : String)
    (lat lon : α) (address : String) (best : Species) (conf : ℚ) :
    ((upload dist now db image lat lon address best conf).alerts =
      if uploadRisk dist now lat lon db.reports (predict_species best conf).1 = Risk.high
          ∨ uploadRisk dist now lat lon db.reports (predict_species best conf).1 =
            Risk.critical then
        db.alerts ++ [uploadAlert lat lon
          (uploadRisk dist now lat lon db.reports (predict_species best conf).1)
          (predict_species best conf).1 now]
      else db.alerts)
    ∧ uploadAlert lat lon
        (uploadRisk dist now lat lon db.reports (predict_species best conf).1)
        (predict_species best conf).1 now =
      { latitude := lat, longitude := lon,
        severity := uploadRisk dist now lat lon db.reports (predict_species best conf).1,
        message := ((predict_species best conf).1).text ++ " detected at high risk",
        created_at := now, status := "Active",
        species := (predict_species best conf).1 } := by
  refine ⟨?_, rfl⟩
  rcases hb : (predict_species best conf).1.isInvasive with _ | _
  · have hd : uploadRisk dist now lat lon db.reports (predict_species best conf).1 =
        defaultRisk (predict_species best conf).1 := by
      simp [uploadRisk, hb]
    rw [hd]
    have h1 := defaultRisk_ne_high (predict_species best conf).1
    have h2 := defaultRisk_ne_critical (predict_species best conf).1
    simp [upload, hb, h1, h2]
  · simp only [upload, hb, Bool.true_and, decide_eq_true_eq]
    split_ifs with h1 h2 h2 <;> simp_all [uploadRisk, hb]

/-- An invasive report timestamped exactly seven days before `now = 0`:
the boundary of both trend windows. -/
def boundaryReport : Report ℚ :=
  { id := 1, image := "r", latitude := 0, longitude := 0, address := "",
    prediction := Label.known Species.appleSnail, created_at := -604800,
    verified := 0, confidence := 1, risk := Risk.low }

/-- C4 counterexample: the source's previous-week window is the CLOSED
interval (SQLite `BETWEEN` is inclusive at both ends), so an invasive
report timestamped exactly now-7d is counted in BOTH the current-week and
the previous-week counts, while the spec's half-open window would count it
zero times in the previous week. -/
theorem trend_boundary_double_count :
    (get_spread_trend 0 [boundaryReport]).1 = 1
    ∧ (get_spread_trend 0 [boundaryReport]).2.1 = 1
    ∧ previousWeekCountSpec 0 [boundaryReport] = 0
    ∧ inCurrentWeek 0 boundaryReport = true
    ∧ inPreviousWeek 0 boundaryReport = true := by
  decide

/-- C4 amended: `previousWeekCount` counts the invasive reports in the
CLOSED interval [now-14d, now-7d]; the two windows overlap exactly on
invasive reports timestamped precisely at now-7d; the trend label is
Spreading when current > previous, Stable when equal, Declining when
current < previous. -/
theorem trend_previous_week_closed_interval {α : Type} (now : Int)
    (reports : List (Report α)) :
    (get_spread_trend now reports).2.1 =
      (reports.filter (fun r => r.prediction.isInvasive
        && decide (now - 2 * sevenDays ≤ r.created_at
          ∧ r.created_at ≤ now - sevenDays))).length
    ∧ (∀ r : Report α, inCurrentWeek now r = true ∧ inPreviousWeek now r = true ↔
        r.prediction.isInvasive = true ∧ r.created_at = now - sevenDays)
    ∧ ((get_spread_trend now reports).2.2 = Trend.spreading ↔
        (get_spread_trend now reports).2.1 < (get_spread_trend now reports).1)
    ∧ ((get_spread_trend now reports).2.2 = Trend.stable ↔
        (get_spread_trend now reports).1 = (get_spread_trend now reports).2.1)
    ∧ ((get_spread_trend now reports).2.2 = Trend.declining ↔
        (get_spread_trend now reports).1 < (get_spread_trend now reports).2.1) := by
  refine ⟨rfl, fun r => ?_, ?_, ?_, ?_⟩
  · simp only [inCurrentWeek, inPreviousWeek, Bool.and_eq_true, decide_eq_true_eq]
    constructor
    · rintro ⟨⟨hP, h1⟩, _, _, h3⟩
      exact ⟨hP, by omega⟩
    · rintro ⟨hP, ht⟩
      have hs : sevenDays = 604800 := rfl
      exact ⟨⟨hP, by omega⟩, hP, by omega, by omega⟩
  all_goals
    simp only [get_spread_trend]
    split_ifs with h1 h2 <;> simp_all <;> omega

/-- C5: a report whose classifier confidence is below 0.70 gets the
terminal Uncertain classification regardless of the argmax label, and
creates no anomaly and no alert row. -/
theorem low_confidence_terminal {α : Type}
    (dist : α → α → α → α → ℚ) (now : Int) (db : DB α) (image : String)
    (lat lon : α) (address : String) (best : Species) (conf : ℚ)
    (h : conf < 7/10) :
    (upload dist now db image lat lon address best conf).reports =
      db.reports ++ [uploadReport db image lat lon address Label.unknown conf now
        Risk.uncertainLowConfidence]
    ∧ (upload dist now db image lat lon address best conf).anomalies = db.anomalies
    ∧ (upload dist now db image lat lon address best conf).alerts = db.alerts := by
  have hp : predict_species best conf = (Label.unknown, conf) := by
    simp [predict_species, h]
  refine ⟨?_, ?_, ?_⟩ <;>
    simp [upload, hp, uploadRisk, defaultRisk, Label.isInvasive]

/-- Witness for C5 at confidence 0.65 and an invasive argmax label. -/
theorem low_confidence_terminal_witness :
    (upload (fun _ _ _ _ => (0:ℚ)) 0 (⟨[], [], [], 5⟩ : DB ℚ) "img" 0 0 "addr"
        Species.asianLonghornedBeetle (13/20)).reports =
      [uploadReport (⟨[], [], [], 5⟩ : DB ℚ) "img" 0 0 "addr" Label.unknown (13/20) 0
        Risk.uncertainLowConfidence]
    ∧ (upload (fun _ _ _ _ => (0:ℚ)) 0 (⟨[], [], [], 5⟩ : DB ℚ) "img" 0 0 "addr"
        Species.asianLonghornedBeetle (13/20)).anomalies = []
    ∧ (upload (fun _ _ _ _ => (0:ℚ)) 0 (⟨[], [], [], 5⟩ : DB ℚ) "img" 0 0 "addr"
        Species.asianLonghornedBeetle (13/20)).alerts = [] := by
  have h := low_confidence_terminal (fun _ _ _ _ => (0:ℚ)) 0 (⟨[], [], [], 5⟩ : DB ℚ)
      "img" 0 0 "addr" Species.asianLonghornedBeetle (13/20) (by norm_num)
  simpa using h

/-- C6: the cluster count's radius test is boundary-inclusive: a candidate
at exactly 20.0 km is counted, a candidate at 20.0001 km is not. -/
theorem cluster_boundary_inclusive {α : Type}
    (dist : α → α → α → α → ℚ) (lat lon : α) (r₁ r₂ : Report α)
    (rest : List (Report α))
    (h₁ : dist lat lon r₁.latitude r₁.longitude = 20)
    (h₂ : dist lat lon r₂.latitude r₂.longitude = 200001/10000) :
    clusterCount dist lat lon (r₁ :: r₂ :: rest) =
      clusterCount dist lat lon rest + 1 := by
  simp only [clusterCount, List.countP_cons, h₁, h₂]
  norm_num

/-- Witness for C6: with one candidate at exactly 20 km and one at
20.0001 km, the cluster count is 1. -/
theorem cluster_boundary_inclusive_witness :
    clusterCount (fun _ _ x _ => x) (0:ℚ) 0
      [{ boundaryReport with latitude := 20 },
       { boundaryReport with latitude := 200001/10000 }] = 1 := by
  have h := cluster_boundary_inclusive (fun _ _ x _ => x) (0:ℚ) 0
      { boundaryReport with latitude := 20 }
      { boundaryReport with latitude := 200001/10000 } [] rfl rfl
  simpa [clusterCount] using h

/-- C7: for an invasive result, clusterCount and recentCount are computed
over the pre-insertion store, so the new report never contributes to its
own counts — even though it is itself invasive and inside the trailing
week (so recounting over the post-insertion store finds one more). The
persisted risk is scored from the pre-insertion counts. -/
theorem counts_exclude_new_report {α : Type}
    (dist : α → α → α → α → ℚ) (now : Int) (db : DB α) (image : String)
    (lat lon : α) (address : String) (best : Species) (conf : ℚ)
    (h : (predict_species best conf).1.isInvasive = true) :
    (upload dist now db image lat lon address best conf).reports =
      db.reports ++ [uploadReport db image lat lon address (predict_species best conf).1
        (predict_species best conf).2 now
        (uploadRisk dist now lat lon db.reports (predict_species best conf).1)]
    ∧ isRecentInvasive now (uploadReport db image lat lon address
        (predict_species best conf).1 (predict_species best conf).2 now
        (uploadRisk dist now lat lon db.reports (predict_species best conf).1)) = true
    ∧ uploadRecentCount now
        (upload dist now db image lat lon address best conf).reports =
      uploadRecentCount now db.reports + 1
    ∧ (uploadReport db image lat lon address (predict_species best conf).1
        (predict_species best conf).2 now
        (uploadRisk dist now lat lon db.reports (predict_species best conf).1)).risk =
      scoreRisk (riskScore (uploadClusterCount dist now lat lon db.reports)
        (uploadRecentCount now db.reports)
        (anomalyFlag (uploadClusterCount dist now lat lon db.reports))) := by
  have hrec : isRecentInvasive now (uploadReport db image lat lon address
      (predict_species best conf).1 (predict_species best conf).2 now
      (uploadRisk dist now lat lon db.reports (predict_species best conf).1)) = true := by
    simp only [isRecentInvasive, uploadReport, Bool.and_eq_true, decide_eq_true_eq, h,
      true_and]
    have hs : sevenDays = 604800 := rfl
    omega
  refine ⟨?_, hrec, ?_, ?_⟩
  · simp [upload]
  · simp [upload, uploadRecentCount, recentInvasiveReports, List.filter_append, hrec]
  · simp [uploadReport, uploadRisk, h]

/-- Witness for C7: on an empty store the new invasive report observes
recentCount 0, yet recounting after its insertion finds 1. -/
theorem counts_exclude_new_report_witness :
    uploadRecentCount 0
      (upload (fun _ _ _ _ => (0:ℚ)) 0 (⟨[], [], [], 0⟩ : DB ℚ) "img" 0 0 "addr"
        Species.appleSnail 1).reports = 1
    ∧ uploadRecentCount 0 ((⟨[], [], [], 0⟩ : DB ℚ) : DB ℚ).reports = 0 := by
  have h := counts_exclude_new_report (fun _ _ _ _ => (0:ℚ)) 0 (⟨[], [], [], 0⟩ : DB ℚ)
      "img" 0 0 "addr" Species.appleSnail 1
      (by norm_num [predict_species, Label.isInvasive, invasiveSpecies])
  refine ⟨?_, by simp [uploadRecentCount, recentInvasiveReports]⟩
  have h3 := h.2.2.1
  simpa [uploadRecentCount, recentInvasiveReports] using h3

/-- The database produced by an upload whose latitude is the non-finite
Python float `nan` (which `float()` parses without error): the pipeline
runs to completion and persists the report. -/
def nanUploadDB : DB PyFloat :=
  upload (fun _ _ _ _ => 0) 0 ⟨[], [], [], 0⟩ "img" PyFloat.nan (PyFloat.finite 0) "addr"
    Species.appleSnail (13/20)

/-- C8 counterexample: `upload` performs no finiteness validation on the
coordinate (src/app.py:156-157 is a bare `float(...)` conversion), so an
upload with latitude `nan` is NOT rejected: a report row carrying the
non-finite coordinate is persisted. -/
theorem nonfinite_coordinate_report_created :
    nanUploadDB.reports =
      [{ id := 0, image := "img", latitude := PyFloat.nan,
         longitude := PyFloat.finite 0, address := "addr",
         prediction := Label.unknown, created_at := 0, verified := 0,
         confidence := 13/20, risk := Risk.uncertainLowConfidence }]
    ∧ PyFloat.isFinite PyFloat.nan = false := by
  refine ⟨?_, rfl⟩
  norm_num [nanUploadDB, upload, predict_species, uploadReport, uploadRisk, defaultRisk,
    Label.isInvasive]

/-- C8 amended: the code performs no coordinate validation; an upload
whose latitude or longitude is non-finite is processed like any other —
exactly one report row, carrying the non-finite coordinate, is appended. -/
theorem nonfinite_coordinate_processed
    (dist : PyFloat → PyFloat → PyFloat → PyFloat → ℚ) (now : Int)
    (db : DB PyFloat) (image : String) (lat lon : PyFloat) (address : String)
    (best : Species) (conf : ℚ)
    (h : lat.isFinite = false ∨ lon.isFinite = false) :
    (upload dist now db image lat lon address best conf).reports.length =
      db.reports.length + 1
    ∧ (upload dist now db image lat lon address best conf).reports =
      db.reports ++ [uploadReport db image lat lon address
        (predict_species best conf).1 (predict_species best conf).2 now
        (uploadRisk dist now lat lon db.reports (predict_species best conf).1)] := by
  constructor <;> simp [upload]

/-- Witness for C8-amended at latitude `nan`. -/
theorem nonfinite_coordinate_processed_witness :
    (upload (fun _ _ _ _ => (0:ℚ)) 0 (⟨[], [], [], 0⟩ : DB PyFloat) "img" PyFloat.nan
      (PyFloat.finite 0) "addr" Species.appleSnail (13/20)).reports.length = 0 + 1 := by
  exact (nonfinite_coordinate_processed (fun _ _ _ _ => (0:ℚ)) 0
    (⟨[], [], [], 0⟩ : DB PyFloat) "img" PyFloat.nan (PyFloat.finite 0) "addr"
    Species.appleSnail (13/20) (Or.inl rfl)).1

/-- C9: approve and reject touch only the `verified` column: every other
field of every row — including `risk`, `prediction`, `confidence` and the
coordinates — and the alerts and anomalies tables are unchanged; the
matching row's `verified` becomes 1 (approve) or -1 (reject). -/
theorem review_changes_only_verified {α : Type} (db : DB α) (reportId : Nat)
    (i : Nat) :
    (approve_report db reportId).alerts = db.alerts
    ∧ (approve_report db reportId).anomalies = db.anomalies
    ∧ (approve_report db reportId).reports.length = db.reports.length
    ∧ ((approve_report db reportId).reports[i]?).map (fun r =>
        (r.id, r.image, r.latitude, r.longitude, r.address, r.prediction,
         r.created_at, r.confidence, r.risk)) =
      (db.reports[i]?).map (fun r =>
        (r.id, r.image, r.latitude, r.longitude, r.address, r.prediction,
         r.created_at, r.confidence, r.risk))
    ∧ ((approve_report db reportId).reports[i]?).map (fun r => r.verified) =
      (db.reports[i]?).map (fun r => if r.id = reportId then 1 else r.verified)
    ∧ (reject_report db reportId).alerts = db.alerts
    ∧ (reject_report db reportId).anomalies = db.anomalies
    ∧ (reject_report db reportId).reports.length = db.reports.length
    ∧ ((reject_report db reportId).reports[i]?).map (fun r =>
        (r.id, r.image, r.latitude, r.longitude, r.address, r.prediction,
         r.created_at, r.confidence, r.risk)) =
      (db.reports[i]?).map (fun r =>
        (r.id, r.image, r.latitude, r.longitude, r.address, r.prediction,
         r.created_at, r.confidence, r.risk))
    ∧ ((reject_report db reportId).reports[i]?).map (fun r => r.verified) =
      (db.reports[i]?).map (fun r => if r.id = reportId then -1 else r.verified) := by
  refine ⟨rfl, rfl, by simp [approve_report], ?_, ?_, rfl, rfl,
    by simp [reject_report], ?_, ?_⟩ <;>
  · simp only [approve_report, reject_report, List.getElem?_map]
    rcases db.reports[i]? with _ | r
    · rfl
    · by_cases hr : r.id = reportId <;> simp [hr]

/-- C10: clusterCount never exceeds recentCount (the cluster is a filtered
count over the same trailing-week window), and whenever the anomaly fires
(clusterCount ≥ 2) the composite score is at least 1.7. -/
theorem cluster_le_recent_and_score_bound {α : Type}
    (dist : α → α → α → α → ℚ) (now : Int) (lat lon : α)
    (reports : List (Report α)) :
    uploadClusterCount dist now lat lon reports ≤ uploadRecentCount now reports
    ∧ (2 ≤ uploadClusterCount dist now lat lon reports →
        2 ≤ uploadRecentCount now reports
        ∧ 17/10 ≤ riskScore (uploadClusterCount dist now lat lon reports)
            (uploadRecentCount now reports)
            (anomalyFlag (uploadClusterCount dist now lat lon reports))) := by
  have hle : uploadClusterCount dist now lat lon reports ≤
      uploadRecentCount now reports := by
    unfold uploadClusterCount uploadRecentCount clusterCount
    exact List.countP_le_length _
  refine ⟨hle, fun h2 => ⟨le_trans h2 hle, ?_⟩⟩
  unfold riskScore anomalyFlag
  rw [if_pos h2]
  have hc : (2:ℚ) ≤ (uploadClusterCount dist now lat lon reports : ℚ) := by
    exact_mod_cast h2
  have hr : (2:ℚ) ≤ (uploadRecentCount now reports : ℚ) := by
    exact_mod_cast le_trans h2 hle
  push_cast
  linarith

/-- Witness for C10: two invasive reports at distance 0 within the window
give clusterCount 2, recentCount 2, and a score of at least 1.7. -/
theorem cluster_le_recent_and_score_bound_witness :
    2 ≤ uploadRecentCount 0
      [{ boundaryReport with created_at := 0 },
       { boundaryReport with id := 2, created_at := 0 }]
    ∧ 17/10 ≤ riskScore
        (uploadClusterCount (fun _ _ _ _ => 0) 0 (0:ℚ) 0
          [{ boundaryReport with created_at := 0 },
           { boundaryReport with id := 2, created_at := 0 }])
        (uploadRecentCount 0
          [{ boundaryReport with created_at := 0 },
           { boundaryReport with id := 2, created_at := 0 }])
        (anomalyFlag (uploadClusterCount (fun _ _ _ _ => 0) 0 (0:ℚ) 0
          [{ boundaryReport with created_at := 0 },
           { boundaryReport with id := 2, created_at := 0 }])) := by
  exact (cluster_le_recent_and_score_bound (fun _ _ _ _ => 0) 0 (0:ℚ) 0
    [{ boundaryReport with created_at := 0 },
     { boundaryReport with id := 2, created_at := 0 }]).2
    (by norm_num [uploadClusterCount, clusterCount, recentInvasiveReports,
      isRecentInvasive, Label.isInvasive, invasiveSpecies, boundaryReport, sevenDays])

end EcoGuard
